import Mathlib

/-!
Verification of the MindFrame AI Teaching Assistant demo (`Atlas_demo.py`)
against its natural-language specification.

The development shallowly embeds the parts of the program the claims are
about:

* Python string helpers (`str.strip`, `str.split('\n')`, the `in` substring
  test) as executable functions on `List Char` / `String`;
* the scripted dialogue state machine of `show_student_experience`
  (session-state fields `student_dialogue_step` and `student_responses`,
  the fixed 5-stage catalog `dialogue_steps`, the per-stage submit handlers
  and the reset button);
* the assignment-builder objective/resource list construction of
  `show_assignment_setup`;
* the mock-data generators `generate_class_data` and
  `generate_individual_student_data`, with `random.uniform` modelled as
  `a + (b - a) * u` over a stream of unit draws `u ∈ [0,1]` (rationals
  stand in for floats), `random.randint`/`random.sample` modelled from an
  abstract source;
* the individual report renderer of `show_student_report` and the
  AI-support bucketing of `show_class_trends`.

Presentation-only message texts that no claim mentions are elided from the
stage catalog; the structure (stage kinds, option lists, prompts) and all
state transitions follow the source.
-/

namespace Atlas

/-! ### Python string primitives -/

/-- Python `s.split(c)` on a list of characters: splitting the empty string
gives `[""]`, and separators at the ends produce empty pieces, exactly as in
Python. -/
def splitOnChar (c : Char) : List Char → List (List Char)
  | [] => [[]]
  | x :: xs =>
    match splitOnChar c xs, decide (x = c) with
    | r, true => [] :: r
    | [], false => [[x]]
    | y :: ys, false => (x :: y) :: ys

/-- Python `s.strip()` on a list of characters: drop leading and trailing
whitespace. -/
def pyStripChars (l : List Char) : List Char :=
  ((l.dropWhile Char.isWhitespace).reverse.dropWhile Char.isWhitespace).reverse

/-- Python `s.strip()` on strings. -/
def pyStrip (s : String) : String :=
  String.mk (pyStripChars s.data)

/-- Python `s.split('\n')` on strings. -/
def pySplitLines (s : String) : List String :=
  (splitOnChar '\n' s.data).map String.mk

/-- Helper for the substring test: does `pat` occur as a contiguous
subsequence of the second list? -/
def infixOfAux (pat : List Char) : List Char → Bool
  | [] => pat.isEmpty
  | c :: cs => pat.isPrefixOf (c :: cs) || infixOfAux pat cs

/-- Python `pat in s` substring containment test. -/
def strContains (s pat : String) : Bool :=
  infixOfAux pat.data s.data

/-! ### Dialogue Script Runner (`show_student_experience`)

Session state is `student_dialogue_step : ℕ` (initially `0`) and
`student_responses` (initially empty), a dictionary from step index to the
student's recorded response. -/

/-- The `'type'` tag of an entry of `dialogue_steps`. -/
inductive StepKind where
  | ai_intro
  | content_delivery
  | comprehension_check
  | deeper_exploration
  | reflection
deriving DecidableEq, Repr

/-- One entry of the fixed `dialogue_steps` catalog: its `'type'` tag, its
`'options'` list (radio choices, empty when the stage has none) and its
`'prompts'` list (reflection stage only). The prose `'content'` /
`'info_chunk'` / `'follow_up'` texts are presentation-only and elided. -/
structure DialogueStep where
  kind : StepKind
  options : List String := []
  prompts : List String := []
deriving DecidableEq, Repr

/-- The fixed 5-stage catalog `dialogue_steps` from `show_student_experience`. -/
def dialogue_steps : List DialogueStep :=
  [ { kind := StepKind.ai_intro,
      options := ["The photographs of bread lines", "Economic data and graphs",
                  "Personal stories from families"] },
    { kind := StepKind.content_delivery },
    { kind := StepKind.comprehension_check,
      options := ["The economy was built on gambling",
                  "The economic system was fragile and interconnected",
                  "People were literally playing cards",
                  "Banks were like card games"] },
    { kind := StepKind.deeper_exploration },
    { kind := StepKind.reflection,
      prompts := ["What surprised you most?", "What questions do you still have?",
                  "How does this connect to something you already knew?"] } ]

/-- The mutable dialogue session state: the cursor
`st.session_state.student_dialogue_step` and the response dictionary
`st.session_state.student_responses`, modelled as an association list with
unique keys (most recent binding first). -/
structure DialogueState where
  student_dialogue_step : ℕ
  student_responses : List (ℕ × String)
deriving DecidableEq, Repr

/-- The initial session state (`student_dialogue_step = 0`, empty
`student_responses`). -/
def initState : DialogueState := ⟨0, []⟩

/-- Python dictionary assignment `student_responses[k] = v`: replace any
existing binding of `k`. -/
def recordResp (m : List (ℕ × String)) (k : ℕ) (v : String) : List (ℕ × String) :=
  (k, v) :: m.filter (fun p => decide (p.1 ≠ k))

/-- A user interaction in the student-experience view: the reset button, or
pressing the current stage's submit button with the chosen option / typed
text as payload (stages without a choice ignore the payload). -/
inductive Action where
  | reset
  | submit (payload : String)
deriving DecidableEq, Repr

/-- What the submit handler renders besides the stage content: nothing
extra, the comprehension-check success acknowledgment (`st.success`), the
corrective hint (`st.warning` plus the follow-up chat message), the
deeper-exploration echo of the first 50 characters, or the fixed synthetic
teacher-report block of the reflection stage. -/
inductive Feedback where
  | silent
  | success
  | corrective
  | echo (s : String)
  | report
deriving DecidableEq, Repr

/-- One user interaction of `show_student_experience`: the reset button sets
the cursor to 0 and clears the responses; a submit press dispatches on the
current stage's `'type'` exactly as the source's `if/elif` chain does.
Note the `reflection` branch renders the report but does not advance the
cursor (the source has no `student_dialogue_step += 1` there), and past the
catalog no submit button exists. -/
def applyAction (s : DialogueState) (a : Action) : DialogueState × Feedback :=
  match a with
  | Action.reset => (initState, Feedback.silent)
  | Action.submit payload =>
    if hlt : s.student_dialogue_step < dialogue_steps.length then
      match (dialogue_steps.get ⟨s.student_dialogue_step, hlt⟩).kind with
      | StepKind.ai_intro =>
          (⟨s.student_dialogue_step + 1,
            recordResp s.student_responses s.student_dialogue_step payload⟩,
           Feedback.silent)
      | StepKind.content_delivery =>
          (⟨s.student_dialogue_step + 1, s.student_responses⟩, Feedback.silent)
      | StepKind.comprehension_check =>
          (⟨s.student_dialogue_step + 1,
            recordResp s.student_responses s.student_dialogue_step payload⟩,
           if strContains payload "fragile and interconnected" then Feedback.success
           else Feedback.corrective)
      | StepKind.deeper_exploration =>
          (⟨s.student_dialogue_step + 1,
            recordResp s.student_responses s.student_dialogue_step payload⟩,
           Feedback.echo (payload.take 50))
      | StepKind.reflection => (s, Feedback.report)
    else (s, Feedback.silent)

/-- The view renders the terminal "Learning session complete" message
exactly when `current_step < len(dialogue_steps)` fails. -/
def sessionComplete (s : DialogueState) : Bool :=
  decide (dialogue_steps.length ≤ s.student_dialogue_step)

/-- States reachable from the initial session state by user interactions. -/
inductive Reachable : DialogueState → Prop where
  | init : Reachable initState
  | step (s : DialogueState) (a : Action) : Reachable s → Reachable (applyAction s a).1

/-! ### Assignment Builder (`show_assignment_setup`) -/

/-- The custom-objective lines as the spec words them: split on newline, each
line trimmed, blank lines dropped. Used to compare `buildObjectives` against
the specification. -/
def specCustomObjectiveLines (t : String) : List String :=
  ((pySplitLines t).map pyStrip).filter (fun l => decide (l ≠ ""))

/-- The `all_objectives` computation of the submit handler: start from the
preset selection; when the custom text is non-blank, extend with
`[obj.strip() for obj in custom_objectives.split('\n') if obj.strip()]`. -/
def buildObjectives (preset : List String) (custom : String) : List String :=
  if pyStrip custom = "" then preset
  else preset ++ ((pySplitLines custom).filter (fun l => decide (pyStrip l ≠ ""))).map pyStrip

/-- Resource text-area handling:
`required_resources.split('\n') if required_resources else []` (the empty
string is falsy in Python). -/
def resourceLines (s : String) : List String :=
  if s = "" then [] else pySplitLines s

/-- The `assignment_data` record stored in session state on submission.
The `guidance_level` label (first segment of the chosen radio string split
on `" - "`) is presentation-only for the claims here and elided. -/
structure AssignmentData where
  title : String
  objectives : List String
  required_resources : List String
  optional_resources : List String
  ai_name : String
  delivery_formats : List String
deriving DecidableEq, Repr

/-- The form-submission handler of `show_assignment_setup`: build
`assignment_data` from the submitted fields. -/
def show_assignment_submit (title : String) (preset : List String) (custom : String)
    (required optional ai_name : String) (delivery : List String) : AssignmentData :=
  { title := title,
    objectives := buildObjectives preset custom,
    required_resources := resourceLines required,
    optional_resources := resourceLines optional,
    ai_name := ai_name,
    delivery_formats := delivery }

/-! ### Mock Data Generators

`random.uniform a b` is modelled as `a + (b - a) * u` where `u` is the next
unit draw of an abstract random source (rationals stand in for floats; the
contract `0 ≤ u ≤ 1` is `random.random()`'s documented range).
`random.randint a b` is modelled as `a + k % (b - a + 1)` from a natural
draw `k`, which is always in `[a, b]`. `random.sample pool n` is modelled
as an abstract selection function of the source. -/

/-- An abstract random source: unit draws for `random.uniform`, natural
draws for `random.randint`, and a selection function for `random.sample`. -/
structure RandSrc where
  unit : ℕ → ℚ
  nat : ℕ → ℕ
  sample : List String → ℕ → List String

/-- `random.uniform a b` from a unit draw `u`. -/
def randUniform (a b u : ℚ) : ℚ := a + (b - a) * u

/-- `random.randint a b` from a natural draw `k`: always lands in `[a, b]`. -/
def randInt (a b k : ℕ) : ℕ := a + k % (b - a + 1)

/-- The source's unit draws all lie in `[0, 1]` (`random.random()`'s range). -/
def UnitRange (src : RandSrc) : Prop := ∀ n, 0 ≤ src.unit n ∧ src.unit n ≤ 1

/-- The fixed roster of `generate_class_data`. -/
def class_students : List String :=
  ["Jayla Williams", "Jackson Miller", "Olivia Chen", "Marcus Johnson",
   "Sophia Rodriguez", "Ethan Kim", "Isabella Brown", "Noah Davis",
   "Emma Wilson", "Liam Garcia", "Ava Martinez", "Lucas Anderson"]

/-- The five canonical learning objectives of `generate_class_data`. -/
def class_objectives : List String :=
  ["Analyze primary sources", "Identify multiple perspectives",
   "Evaluate evidence quality", "Synthesize information", "Draw supported conclusions"]

/-- The curiosity-path catalog sampled by `generate_class_data`. -/
def curiosity_pool : List String :=
  ["Climate Change Connections", "Modern Parallels", "Economic Factors",
   "Cultural Impact", "Technology Influence", "Global Perspectives",
   "Environmental Effects", "Social Justice Angles"]

/-- One `student_data` dictionary of `generate_class_data`'s loop body. -/
structure ClassStudentData where
  student_name : String
  objectives_mastered : List (String × ℚ)
  writing_scores : List ℚ
  curiosity_paths : List String
  ai_support_level : ℚ
  total_time_minutes : ℕ
  questions_asked : ℕ
  revisions_made : ℕ
  confusion_areas : List String

/-- The loop body of `generate_class_data` for one student: every stochastic
field sampled from its documented range. -/
def genClassStudent (student : String) (src : RandSrc) : ClassStudentData :=
  { student_name := student,
    objectives_mastered := class_objectives.enum.map
      (fun p => (p.2, randUniform 0.6 1.0 (src.unit p.1))),
    writing_scores := (List.range 6).map (fun i => randUniform 6 10 (src.unit (5 + i))),
    curiosity_paths := src.sample curiosity_pool (randInt 1 4 (src.nat 0)),
    ai_support_level := randUniform 0.2 0.8 (src.unit 11),
    total_time_minutes := randInt 45 120 (src.nat 1),
    questions_asked := randInt 3 15 (src.nat 2),
    revisions_made := randInt 2 8 (src.nat 3),
    confusion_areas := src.sample class_objectives (randInt 0 2 (src.nat 4)) }

/-- `generate_class_data`: one record per roster name, plus the objective
list, each student drawing from its own slice of the random source. -/
def generate_class_data (srcs : String → RandSrc) :
    List ClassStudentData × List String :=
  (class_students.map (fun nm => genClassStudent nm (srcs nm)), class_objectives)

/-- The exploration-tag catalog sampled by `generate_individual_student_data`. -/
def exploration_pool : List String :=
  ["Economic parallels to 2008", "Environmental justice", "Global perspectives",
   "Technology impacts", "Social movements", "Cultural analysis"]

/-- The record returned by `generate_individual_student_data`. -/
structure IndivStudentData where
  name : String
  objectives_progress : List (String × ℚ)
  writing_timeline : List (String × ℚ)
  exploration_tags : List String
  ai_breakdown : List (String × ℚ)
deriving DecidableEq, Repr

/-- `generate_individual_student_data`: detailed data for the individual
report. The source re-declares the same five objectives locally. -/
def generate_individual_student_data (student_name : String) (src : RandSrc) :
    IndivStudentData :=
  { name := student_name,
    objectives_progress := class_objectives.enum.map
      (fun p => (p.2, randUniform 0.7 1.0 (src.unit p.1))),
    writing_timeline := (List.range 6).map
      (fun i => ("Week " ++ toString (i + 1), randUniform 6.5 9.5 (src.unit (5 + i)))),
    exploration_tags := src.sample exploration_pool (randInt 2 4 (src.nat 0)),
    ai_breakdown := [("student_original", randUniform 0.4 0.7 (src.unit 11)),
                     ("ai_scaffolding", randUniform 0.2 0.4 (src.unit 12)),
                     ("collaborative", randUniform 0.1 0.3 (src.unit 13))] }

/-- A concrete random source for witnesses: every unit draw is `1/2`, every
natural draw is `0`, and sampling takes a prefix of the pool. -/
def halfSrc : RandSrc :=
  { unit := fun _ => 1/2, nat := fun _ => 0, sample := fun pool k => pool.take k }

/-! ### Report Renderer (`show_student_report`) -/

/-- Fold step for Python `max(d, key=d.get)` over an association list: keep
the first entry with the strictly greatest value. -/
def maxKeyAux (best : String × ℚ) : List (String × ℚ) → String
  | [] => best.1
  | p :: rest => maxKeyAux (if best.2 < p.2 then p else best) rest

/-- Python `max(d, key=d.get)`: the first key of greatest value (`""` on the
empty dictionary, where Python would raise; the report dictionaries always
have five entries). -/
def maxKey : List (String × ℚ) → String
  | [] => ""
  | p :: rest => maxKeyAux p rest

/-- Fold step for Python `min(d, key=d.get)`. -/
def minKeyAux (best : String × ℚ) : List (String × ℚ) → String
  | [] => best.1
  | p :: rest => minKeyAux (if p.2 < best.2 then p else best) rest

/-- Python `min(d, key=d.get)`: the first key of least value. -/
def minKey : List (String × ℚ) → String
  | [] => ""
  | p :: rest => minKeyAux p rest

/-- Everything `show_student_report` derives from a Student Record: the
chart-ready rows and the insight texts, together with the record as the
view leaves it (the view only reads it). -/
structure ReportRender where
  objRows : List (String × ℚ)
  aiPieValues : List ℚ
  aiPieNames : List String
  timelineRows : List (String × ℚ)
  explorationTags : List String
  insights : List String
  record : IndivStudentData
deriving DecidableEq, Repr

/-- The rendering pipeline of `show_student_report` on a given record.
Besides the record it consumes two fresh render-time draws, exactly where
the source calls the random module inside `insights`:
`random.randint(15, 35)` (the growth percentage, `growthPct`) and
`random.choice(student_data['exploration_tags'])` (modelled as an index
`choiceIdx` into the tag list). -/
def show_student_report (d : IndivStudentData) (growthPct choiceIdx : ℕ) : ReportRender :=
  { objRows := d.objectives_progress,
    aiPieValues := d.ai_breakdown.map Prod.snd,
    aiPieNames := ["Student Original", "AI Scaffolding", "Collaborative"],
    timelineRows := d.writing_timeline,
    explorationTags := d.exploration_tags,
    insights :=
      ["✨ **Strength**: Excels at " ++ maxKey d.objectives_progress,
       "📈 **Growth**: Writing scores improved " ++ toString growthPct ++ "% over term",
       "🎯 **Focus Area**: Could benefit from support in " ++ minKey d.objectives_progress,
       "🚀 **Next Steps**: Ready for advanced work in " ++ d.exploration_tags.getD choiceIdx ""],
    record := d }

/-- A concrete Student Record for counterexamples: the individual generator
run on the witness source. Its exploration tags are the first two pool
entries. -/
def demoIndivData : IndivStudentData :=
  generate_individual_student_data "Jayla Williams" halfSrc

/-! ### Class Trends (`show_class_trends`) -/

/-- The `support_counts` computation of the AI-support histogram: how many
support levels fall in each of the three fixed bands
`< 0.4`, `[0.4, 0.6)`, `≥ 0.6`. -/
def support_counts (support_levels : List ℚ) : List ℕ :=
  [support_levels.countP (fun x => decide (x < 0.4)),
   support_levels.countP (fun x => decide (0.4 ≤ x ∧ x < 0.6)),
   support_levels.countP (fun x => decide (0.6 ≤ x))]

/-! ## Theorems -/

/-! ### Evaluation lemmas for the dialogue machine -/

theorem applyAction_reset (s : DialogueState) :
    applyAction s Action.reset = (initState, Feedback.silent) := rfl

theorem applyAction_step0 (r : List (ℕ × String)) (p : String) :
    applyAction ⟨0, r⟩ (Action.submit p) = (⟨1, recordResp r 0 p⟩, Feedback.silent) := rfl

theorem applyAction_step1 (r : List (ℕ × String)) (p : String) :
    applyAction ⟨1, r⟩ (Action.submit p) = (⟨2, r⟩, Feedback.silent) := rfl

theorem applyAction_step2 (r : List (ℕ × String)) (p : String) :
    applyAction ⟨2, r⟩ (Action.submit p) =
      (⟨3, recordResp r 2 p⟩,
       if strContains p "fragile and interconnected" then Feedback.success
       else Feedback.corrective) := rfl

theorem applyAction_step3 (r : List (ℕ × String)) (p : String) :
    applyAction ⟨3, r⟩ (Action.submit p) =
      (⟨4, recordResp r 3 p⟩, Feedback.echo (p.take 50)) := rfl

theorem applyAction_step4 (r : List (ℕ × String)) (p : String) :
    applyAction ⟨4, r⟩ (Action.submit p) = (⟨4, r⟩, Feedback.report) := rfl

theorem applyAction_done (c : ℕ) (r : List (ℕ × String)) (p : String)
    (h : dialogue_steps.length ≤ c) :
    applyAction ⟨c, r⟩ (Action.submit p) = (⟨c, r⟩, Feedback.silent) := by
  simp only [applyAction]
  rw [dif_neg (Nat.not_lt.mpr h)]

theorem keys_recordResp_subset (m : List (ℕ × String)) (k : ℕ) (v : String) :
    ∀ j ∈ (recordResp m k v).map Prod.fst, j = k ∨ j ∈ m.map Prod.fst := by
  intro j hj
  simp only [recordResp, List.map_cons, List.mem_cons] at hj
  rcases hj with rfl | hj
  · exact Or.inl rfl
  · exact Or.inr (List.map_subset Prod.fst (List.filter_subset' _) hj)

/-- The inductive invariant of the dialogue session: the cursor never
exceeds 4 (the reflection stage does not advance it), and responses are
only ever recorded at steps 0, 2 and 3. -/
theorem reachable_invariant (s : DialogueState) (h : Reachable s) :
    s.student_dialogue_step ≤ 4 ∧
    ∀ k ∈ s.student_responses.map Prod.fst, k = 0 ∨ k = 2 ∨ k = 3 := by
  induction h with
  | init => exact ⟨Nat.zero_le 4, by simp [initState]⟩
  | step s a hr ih =>
    obtain ⟨hc, hk⟩ := ih
    cases a with
    | reset => exact ⟨Nat.zero_le 4, by simp [applyAction, initState]⟩
    | submit p =>
      obtain ⟨c, r⟩ := s
      have hc' : c ≤ 4 := hc
      interval_cases c
      · rw [applyAction_step0]
        refine ⟨by show (1 : ℕ) ≤ 4; decide, fun j hj => ?_⟩
        rcases keys_recordResp_subset r 0 p j hj with rfl | hj'
        · exact Or.inl rfl
        · exact hk j hj'
      · rw [applyAction_step1]
        exact ⟨by show (2 : ℕ) ≤ 4; decide, hk⟩
      · rw [applyAction_step2]
        refine ⟨by show (3 : ℕ) ≤ 4; decide, fun j hj => ?_⟩
        rcases keys_recordResp_subset r 2 p j hj with rfl | hj'
        · exact Or.inr (Or.inl rfl)
        · exact hk j hj'
      · rw [applyAction_step3]
        refine ⟨by show (4 : ℕ) ≤ 4; decide, fun j hj => ?_⟩
        rcases keys_recordResp_subset r 3 p j hj with rfl | hj'
        · exact Or.inr (Or.inr rfl)
        · exact hk j hj'
      · rw [applyAction_step4]
        exact ⟨by show (4 : ℕ) ≤ 4; decide, hk⟩

/-! ### Claim C1 — reflection completion

The spec says completing the reflection stage renders the teacher-report
block and moves the cursor to the terminal DONE state
(`len(dialogue_steps) = 5`). The source renders the report but contains no
`student_dialogue_step += 1` in the reflection branch, so the cursor stays
at 4 and the terminal completion branch of the view is dead code. -/

/-- C1: at the reachable reflection state (cursor 4), submitting the
completion action renders the fixed synthetic teacher-report block, but the
cursor stays at 4 — it does not reach the terminal value
`dialogue_steps.length = 5` the claim requires, and the terminal
"session complete" rendering is not triggered. -/
theorem reflection_complete_renders_report_without_advancing :
    Reachable ⟨4, [(3, "the banks"), (2, "Banks were like card games"),
                   (0, "Economic data and graphs")]⟩ ∧
    (applyAction ⟨4, [(3, "the banks"), (2, "Banks were like card games"),
                      (0, "Economic data and graphs")]⟩ (Action.submit "")).2 =
      Feedback.report ∧
    (applyAction ⟨4, [(3, "the banks"), (2, "Banks were like card games"),
                      (0, "Economic data and graphs")]⟩ (Action.submit "")).1 =
      ⟨4, [(3, "the banks"), (2, "Banks were like card games"),
           (0, "Economic data and graphs")]⟩ ∧
    dialogue_steps.length = 5 ∧
    sessionComplete (applyAction ⟨4, [(3, "the banks"), (2, "Banks were like card games"),
                                      (0, "Economic data and graphs")]⟩
        (Action.submit "")).1 = false := by
  refine ⟨?_, by decide, by decide, by decide, by decide⟩
  exact Reachable.step _ (Action.submit "the banks")
    (Reachable.step _ (Action.submit "Banks were like card games")
      (Reachable.step _ (Action.submit "")
        (Reachable.step _ (Action.submit "Economic data and graphs") Reachable.init)))

/-! ### Claim C3 — cursor monotone except on reset -/

/-- C3: for every session state and user action, the dialogue cursor never
decreases unless the action is the explicit reset, and the reset action
always returns the cursor to 0 and empties the recorded-response map. -/
theorem cursor_monotone_and_reset_clears (s : DialogueState) (a : Action) :
    (a = Action.reset →
      (applyAction s a).1.student_dialogue_step = 0 ∧
      (applyAction s a).1.student_responses = []) ∧
    (a ≠ Action.reset →
      s.student_dialogue_step ≤ (applyAction s a).1.student_dialogue_step) := by
  constructor
  · rintro rfl
    exact ⟨rfl, rfl⟩
  · intro h
    cases a with
    | reset => exact absurd rfl h
    | submit p =>
      obtain ⟨c, r⟩ := s
      by_cases hlt : c < dialogue_steps.length
      · have hc : c < 5 := hlt
        interval_cases c
        · rw [applyAction_step0]; exact Nat.le_succ 0
        · rw [applyAction_step1]; exact Nat.le_succ 1
        · rw [applyAction_step2]; exact Nat.le_succ 2
        · rw [applyAction_step3]; exact Nat.le_succ 3
        · rw [applyAction_step4]
      · rw [applyAction_done c r p (Nat.le_of_not_lt hlt)]

/-- Witness for C3 at a concrete state: resetting from cursor 3 clears the
session, and a submit press at cursor 3 does not decrease the cursor. -/
theorem cursor_monotone_and_reset_clears_witness :
    ((applyAction ⟨3, [(0, "x")]⟩ Action.reset).1.student_dialogue_step = 0 ∧
     (applyAction ⟨3, [(0, "x")]⟩ Action.reset).1.student_responses = []) ∧
    (⟨3, [(0, "x")]⟩ : DialogueState).student_dialogue_step ≤
      (applyAction ⟨3, [(0, "x")]⟩ (Action.submit "idea")).1.student_dialogue_step :=
  ⟨(cursor_monotone_and_reset_clears ⟨3, [(0, "x")]⟩ Action.reset).1 rfl,
   (cursor_monotone_and_reset_clears ⟨3, [(0, "x")]⟩ (Action.submit "idea")).2 (by decide)⟩

/-! ### Claim C4 — cursor range invariant and the terminal state -/

/-- C4: in every reachable session state the cursor lies in
`[0, len(dialogue_steps)]` with the catalog holding 5 stages, and the
terminal "session complete" rendering fires exactly when the cursor equals
`len(dialogue_steps)`. -/
theorem cursor_range_invariant (s : DialogueState) (h : Reachable s) :
    dialogue_steps.length = 5 ∧
    0 ≤ s.student_dialogue_step ∧
    s.student_dialogue_step ≤ dialogue_steps.length ∧
    (sessionComplete s = true ↔ s.student_dialogue_step = dialogue_steps.length) := by
  have hc := (reachable_invariant s h).1
  have h5 : dialogue_steps.length = 5 := rfl
  refine ⟨h5, Nat.zero_le _, by omega, ?_⟩
  rw [sessionComplete, h5]
  constructor
  · intro hd
    have := of_decide_eq_true hd
    omega
  · intro he
    exact decide_eq_true (by omega)

/-- Witness for C4 at the initial state. -/
theorem cursor_range_invariant_witness :
    dialogue_steps.length = 5 ∧
    0 ≤ initState.student_dialogue_step ∧
    initState.student_dialogue_step ≤ dialogue_steps.length ∧
    (sessionComplete initState = true ↔
      initState.student_dialogue_step = dialogue_steps.length) :=
  cursor_range_invariant initState Reachable.init

/-! ### Claim C5 — comprehension-check branching -/

/-- C5: at step 2 any submitted option takes the success branch exactly when
its text contains `"fragile and interconnected"` and the corrective branch
otherwise; in both cases the answer is recorded under key 2 and the cursor
advances to 3. The literal option
`"The economic system was fragile and interconnected"` contains the
substring and `"Banks were like card games"` does not, and both are among
the four options of the comprehension-check stage. -/
theorem comprehension_check_branching (r : List (ℕ × String)) (answer : String) :
    applyAction ⟨2, r⟩ (Action.submit answer) =
      (⟨3, recordResp r 2 answer⟩,
       if strContains answer "fragile and interconnected" then Feedback.success
       else Feedback.corrective) ∧
    strContains "The economic system was fragile and interconnected"
      "fragile and interconnected" = true ∧
    strContains "Banks were like card games" "fragile and interconnected" = false ∧
    "The economic system was fragile and interconnected" ∈
      (dialogue_steps.get ⟨2, by decide⟩).options ∧
    "Banks were like card games" ∈ (dialogue_steps.get ⟨2, by decide⟩).options :=
  ⟨rfl, by decide, by decide, by decide, by decide⟩

/-! ### Claim C10 — response keys only at steps 0, 2 and 3 -/

/-- C10: in every reachable session state, every key of the recorded
response map is 0, 2 or 3 — the content-delivery step (1) and the
reflection step (4) never record a response. -/
theorem response_keys_subset (s : DialogueState) (h : Reachable s) :
    ∀ k ∈ s.student_responses.map Prod.fst, k = 0 ∨ k = 2 ∨ k = 3 :=
  (reachable_invariant s h).2

/-- Witness for C10: the key recorded by the first dialogue submission is
one of 0, 2, 3. -/
theorem response_keys_subset_witness :
    (0 : ℕ) = 0 ∨ (0 : ℕ) = 2 ∨ (0 : ℕ) = 3 :=
  response_keys_subset _
    (Reachable.step initState (Action.submit "The photographs of bread lines")
      Reachable.init)
    0 (by decide)

/-! ### Claim C2 — purity of the Report Renderer

The chart-row transforms of `show_student_report` depend on the record
alone and the record is not mutated, but the insight-text list also
consumes fresh render-time draws (`random.randint(15, 35)` and
`random.choice` over the exploration tags), so two renders of the same
record can disagree on the insights. -/

/-- C2 (counterexample): rendering the same Student Record twice with two
legal render-time draws (here two valid `random.choice` indices into the
two exploration tags) yields different insight-text lists, refuting
"the insight-text list is determined by the record alone". -/
theorem report_insights_not_determined_by_record :
    demoIndivData.exploration_tags.length = 2 ∧
    (show_student_report demoIndivData 20 0).record =
      (show_student_report demoIndivData 20 1).record ∧
    (show_student_report demoIndivData 20 0).insights ≠
      (show_student_report demoIndivData 20 1).insights :=
  ⟨by decide, rfl,
   fun h => absurd (congrArg (fun l => l.getD 3 "") h) (by decide)⟩

/-- C2 (amended): the chart-row transforms (objective-mastery bar rows,
AI-composition pie values, writing-score line rows) are determined by the
Student Record alone — equal for any two renders of equal records,
whatever the render-time draws — and the record comes out of the render
unchanged; only the insight-text list may differ between renders. -/
theorem report_renderer_pure_on_chart_rows (d : IndivStudentData)
    (p p' c c' : ℕ) :
    (show_student_report d p c).objRows = (show_student_report d p' c').objRows ∧
    (show_student_report d p c).aiPieValues = (show_student_report d p' c').aiPieValues ∧
    (show_student_report d p c).timelineRows = (show_student_report d p' c').timelineRows ∧
    (show_student_report d p c).explorationTags = (show_student_report d p' c').explorationTags ∧
    (show_student_report d p c).record = d :=
  ⟨rfl, rfl, rfl, rfl, rfl⟩

/-! ### Claim C7 — assignment objective list -/

/-- The comprehension-filter form used by the source equals the
spec's "trim every line, then drop blanks" form. -/
theorem filter_strip_comm (l : List String) :
    (l.filter (fun x => decide (pyStrip x ≠ ""))).map pyStrip =
      (l.map pyStrip).filter (fun x => decide (x ≠ "")) := by
  rw [List.filter_map]
  rfl

/-- C7: on submission with non-blank custom text, the objective list is the
preset objectives followed by the custom lines split on newline, trimmed,
with blank lines dropped; for custom input `"A\n\nB\n"` the list is the
preset followed by `["A", "B"]`. -/
theorem assignment_objective_list (preset : List String) (custom : String)
    (h : pyStrip custom ≠ "") :
    buildObjectives preset custom = preset ++ specCustomObjectiveLines custom ∧
    buildObjectives preset "A\n\nB\n" = preset ++ ["A", "B"] := by
  constructor
  · rw [buildObjectives, if_neg h, specCustomObjectiveLines, filter_strip_comm]
  · rw [buildObjectives, if_neg (by decide)]
    congr 1

/-- Witness for C7 at the concrete inputs of the claim. -/
theorem assignment_objective_list_witness :
    buildObjectives ["Analyze primary sources"] "A\n\nB\n" =
      ["Analyze primary sources"] ++ specCustomObjectiveLines "A\n\nB\n" ∧
    buildObjectives ["Analyze primary sources"] "A\n\nB\n" =
      ["Analyze primary sources"] ++ ["A", "B"] :=
  assignment_objective_list ["Analyze primary sources"] "A\n\nB\n" (by decide)

/-! ### Claim C8 — resource-list splitting -/

/-- C8: for both the required and the optional resource fields, the empty
string input yields the empty list and the input `"x\ny"` yields
`["x", "y"]`. -/
theorem resource_list_splitting (t cu a : String) (pre del : List String) :
    (show_assignment_submit t pre cu "" "" a del).required_resources = [] ∧
    (show_assignment_submit t pre cu "" "" a del).optional_resources = [] ∧
    (show_assignment_submit t pre cu "x\ny" "x\ny" a del).required_resources = ["x", "y"] ∧
    (show_assignment_submit t pre cu "x\ny" "x\ny" a del).optional_resources = ["x", "y"] :=
  ⟨rfl, rfl, by show resourceLines "x\ny" = _; decide,
   by show resourceLines "x\ny" = _; decide⟩

/-! ### Claim C6 — mock-data bounds -/

/-- `random.uniform a b` stays in `[a, b]` when the unit draw is in `[0, 1]`. -/
theorem randUniform_mem {a b u : ℚ} (hab : a ≤ b) (h0 : 0 ≤ u) (h1 : u ≤ 1) :
    a ≤ randUniform a b u ∧ randUniform a b u ≤ b := by
  unfold randUniform
  constructor
  · nlinarith
  · nlinarith

/-- Bounds for one student of the class generator. -/
theorem genClassStudent_bounds (name : String) (src : RandSrc) (h : UnitRange src) :
    (∀ pr ∈ (genClassStudent name src).objectives_mastered, 0 ≤ pr.2 ∧ pr.2 ≤ 1) ∧
    (genClassStudent name src).writing_scores.length = 6 ∧
    (∀ w ∈ (genClassStudent name src).writing_scores, 6 ≤ w ∧ w ≤ 10) ∧
    0 ≤ (genClassStudent name src).ai_support_level ∧
    (genClassStudent name src).ai_support_level ≤ 1 := by
  refine ⟨?_, ?_, ?_, ?_, ?_⟩
  · intro pr hpr
    simp only [genClassStudent, List.mem_map] at hpr
    obtain ⟨⟨i, obj⟩, -, rfl⟩ := hpr
    have hb := randUniform_mem (a := 0.6) (b := 1.0) (by norm_num) (h i).1 (h i).2
    show 0 ≤ randUniform 0.6 1.0 (src.unit i) ∧ randUniform 0.6 1.0 (src.unit i) ≤ 1
    exact ⟨by linarith [hb.1], by linarith [hb.2]⟩
  · simp [genClassStudent]
  · intro w hw
    simp only [genClassStudent, List.mem_map, List.mem_range] at hw
    obtain ⟨i, -, rfl⟩ := hw
    exact randUniform_mem (by norm_num) (h (5 + i)).1 (h (5 + i)).2
  · have hb := randUniform_mem (a := 0.2) (b := 0.8) (by norm_num) (h 11).1 (h 11).2
    have : (0 : ℚ) ≤ 0.2 := by norm_num
    calc (0 : ℚ) ≤ 0.2 := this
      _ ≤ _ := hb.1
  · have hb := randUniform_mem (a := 0.2) (b := 0.8) (by norm_num) (h 11).1 (h 11).2
    calc (genClassStudent name src).ai_support_level ≤ 0.8 := hb.2
      _ ≤ 1 := by norm_num

/-- C6: for every random source whose unit draws are in `[0, 1]`, every
Student Record produced by the class generator and by the individual
generator satisfies its documented bounds: mastery fractions in `[0, 1]`,
AI-support fractions in `[0, 1]`, and the six writing scores in `[6, 10]`. -/
theorem mock_data_bounds (srcs : String → RandSrc) (name : String) (src : RandSrc)
    (hsrcs : ∀ nm, UnitRange (srcs nm)) (hsrc : UnitRange src) :
    (∀ rec ∈ (generate_class_data srcs).1,
       (∀ pr ∈ rec.objectives_mastered, 0 ≤ pr.2 ∧ pr.2 ≤ 1) ∧
       rec.writing_scores.length = 6 ∧
       (∀ w ∈ rec.writing_scores, 6 ≤ w ∧ w ≤ 10) ∧
       0 ≤ rec.ai_support_level ∧ rec.ai_support_level ≤ 1) ∧
    (∀ pr ∈ (generate_individual_student_data name src).objectives_progress,
       0 ≤ pr.2 ∧ pr.2 ≤ 1) ∧
    (generate_individual_student_data name src).writing_timeline.length = 6 ∧
    (∀ t ∈ (generate_individual_student_data name src).writing_timeline,
       6 ≤ t.2 ∧ t.2 ≤ 10) ∧
    (∀ pr ∈ (generate_individual_student_data name src).ai_breakdown,
       0 ≤ pr.2 ∧ pr.2 ≤ 1) := by
  refine ⟨?_, ?_, ?_, ?_, ?_⟩
  · intro rec hrec
    simp only [generate_class_data, List.mem_map] at hrec
    obtain ⟨nm, -, rfl⟩ := hrec
    exact genClassStudent_bounds nm (srcs nm) (hsrcs nm)
  · intro pr hpr
    simp only [generate_individual_student_data, List.mem_map] at hpr
    obtain ⟨⟨i, obj⟩, -, rfl⟩ := hpr
    have hb := randUniform_mem (a := 0.7) (b := 1.0) (by norm_num) (hsrc i).1 (hsrc i).2
    show 0 ≤ randUniform 0.7 1.0 (src.unit i) ∧ randUniform 0.7 1.0 (src.unit i) ≤ 1
    exact ⟨by linarith [hb.1], by linarith [hb.2]⟩
  · simp [generate_individual_student_data]
  · intro t ht
    simp only [generate_individual_student_data, List.mem_map, List.mem_range] at ht
    obtain ⟨i, -, rfl⟩ := ht
    have hb := randUniform_mem (a := 6.5) (b := 9.5) (by norm_num)
      (hsrc (5 + i)).1 (hsrc (5 + i)).2
    exact ⟨by linarith [hb.1], by linarith [hb.2]⟩
  · intro pr hpr
    simp only [generate_individual_student_data, List.mem_cons, List.not_mem_nil] at hpr
    rcases hpr with rfl | rfl | rfl | h
    · have hb := randUniform_mem (a := 0.4) (b := 0.7) (by norm_num) (hsrc 11).1 (hsrc 11).2
      exact ⟨by linarith [hb.1], by linarith [hb.2]⟩
    · have hb := randUniform_mem (a := 0.2) (b := 0.4) (by norm_num) (hsrc 12).1 (hsrc 12).2
      exact ⟨by linarith [hb.1], by linarith [hb.2]⟩
    · have hb := randUniform_mem (a := 0.1) (b := 0.3) (by norm_num) (hsrc 13).1 (hsrc 13).2
      exact ⟨by linarith [hb.1], by linarith [hb.2]⟩
    · exact absurd h (by simp)

/-- Witness for C6 at the concrete all-halves random source. -/
theorem mock_data_bounds_witness :
    (∀ rec ∈ (generate_class_data (fun _ => halfSrc)).1,
       (∀ pr ∈ rec.objectives_mastered, 0 ≤ pr.2 ∧ pr.2 ≤ 1) ∧
       rec.writing_scores.length = 6 ∧
       (∀ w ∈ rec.writing_scores, 6 ≤ w ∧ w ≤ 10) ∧
       0 ≤ rec.ai_support_level ∧ rec.ai_support_level ≤ 1) ∧
    (∀ pr ∈ (generate_individual_student_data "Jayla Williams" halfSrc).objectives_progress,
       0 ≤ pr.2 ∧ pr.2 ≤ 1) ∧
    (generate_individual_student_data "Jayla Williams" halfSrc).writing_timeline.length = 6 ∧
    (∀ t ∈ (generate_individual_student_data "Jayla Williams" halfSrc).writing_timeline,
       6 ≤ t.2 ∧ t.2 ≤ 10) ∧
    (∀ pr ∈ (generate_individual_student_data "Jayla Williams" halfSrc).ai_breakdown,
       0 ≤ pr.2 ∧ pr.2 ≤ 1) :=
  mock_data_bounds (fun _ => halfSrc) "Jayla Williams" halfSrc
    (fun _ n => by constructor <;> norm_num [halfSrc])
    (fun n => by constructor <;> norm_num [halfSrc])

/-! ### Claim C9 — AI-support bucketing -/

/-- C9: each support level lands in exactly one of the three bands, so the
bucket counts always sum to the roster size; the roster `[0.3, 0.5, 0.7]`
yields bucket counts `[1, 1, 1]`. -/
theorem support_counts_partition (support_levels : List ℚ) :
    (support_counts support_levels).sum = support_levels.length ∧
    support_counts [0.3, 0.5, 0.7] = [1, 1, 1] := by
  constructor
  · induction support_levels with
    | nil => rfl
    | cons x xs ih =>
      simp only [support_counts, List.sum_cons, List.sum_nil, List.countP_cons,
        List.length_cons, decide_eq_true_eq] at ih ⊢
      rcases lt_or_le x 0.4 with h1 | h1
      · rw [if_pos h1,
          if_neg (fun hc => absurd hc.1 (not_le.mpr h1)),
          if_neg (not_le.mpr (lt_of_lt_of_le h1 (by norm_num)))]
        omega
      · rcases lt_or_le x 0.6 with h2 | h2
        · rw [if_neg (not_lt.mpr h1), if_pos ⟨h1, h2⟩, if_neg (not_le.mpr h2)]
          omega
        · rw [if_neg (not_lt.mpr (le_trans (by norm_num) h2)),
            if_neg (fun hc => absurd hc.2 (not_lt.mpr h2)),
            if_pos h2]
          omega
  · simp only [support_counts, List.countP_cons, List.countP_nil]
    norm_num

end Atlas
